import Mathlib

/-!
# SQLConnection: a shallow embedding of `src/sqlconn/SQLConnection.h`

The class wraps the MySQL C client library.  The library itself is not part of
the repository, so its behaviour enters the development in two ways:

* the data it hands to the wrapper (a session behind a `MYSQL*`, a buffered
  result set behind a `MYSQL_RES*`) is modelled by plain records;
* what the server decides (whether a connection attempt succeeds, what a query
  does to the session, how a text is escaped) is a parameter, the record
  `Server`, over which every general theorem quantifies.

A `std::string` and a C string are both a Lean `String`; one `Char` stands for
one `char`.  Undefined behaviour of the C++ code (reading through a null
pointer, reading past the end of an array) is an explicit `Except.error`.
-/

namespace SqlConn

/-! ## The client library's data -/

/-- The terminating byte of a C string. -/
def NUL : Char := Char.ofNat 0

/-- One row as `mysql_fetch_row` returns it (`MYSQL_ROW`, a `char**`): one
pointer per column, `none` for the null pointer (database NULL), `some v` for
a pointer to the characters of the column value `v`, which the library
follows with a terminating byte.  The value itself may contain zero bytes; a
reader that takes the pointer for a C string sees `c_str v`. -/
abbrev MYSQL_ROW := List (Option String)

/-- A buffered result set (`MYSQL_RES`): the column count that
`mysql_num_fields` reports (an `unsigned int`) and the rows the cursor has not
yet handed out. -/
structure MYSQL_RES where
  num_fields : Nat
  rows : List MYSQL_ROW
deriving DecidableEq, Repr

/-- The session behind a `MYSQL*`: the `server_status` member the wrapper
reads, the text `mysql_error` reports, the result of the current statement
(`none` when it produced no result set or it was already fetched) and the
results of the statements after it in a multi-statement query.  While
`current` holds a result set the session waits for it to be fetched (the
library's member `status` is not `MYSQL_STATUS_READY`). -/
structure MYSQL where
  server_status : Nat
  error : String
  current : Option MYSQL_RES
  more : List (Option MYSQL_RES)
deriving DecidableEq, Repr

/-- Modelled from the client library's header `mysql.h`, which the source
includes and the repository does not contain: the first enumerator of
`enum mysql_status`, the type of the member `status` of a session. -/
def MYSQL_STATUS_READY : Nat := 0

/-- Modelled from the client library's header `mysql_com.h`: the flag a
server sets in the member `server_status` of a session while the session is
in autocommit mode, which is the mode of a new session unless the server is
configured otherwise. -/
def SERVER_STATUS_AUTOCOMMIT : Nat := 2

/-- What the server side decides.  `real_connect` answers the connection
attempt number `attempt` (counted from 0 over the life of the program) with a
session or with a failure; `query` runs a statement on a session and gives the
status code of `mysql_query` and the session afterwards; `real_escape_string`
is the escaped text `mysql_real_escape_string` produces on a session. -/
structure Server where
  real_connect : (server user password database : String) → (port : Int) →
    (attempt : Nat) → Option MYSQL
  query : MYSQL → String → Int × MYSQL
  real_escape_string : MYSQL → String → String

/-- The text a `const char*` obtained from `std::string::c_str` denotes: the
characters before the first terminating byte. -/
def c_str (s : String) : String := String.mk (s.data.takeWhile (fun c => c != NUL))

/-- The message of the last failed call on the session. -/
def mysql_error (conn : MYSQL) : String := conn.error

/-- Hands the current statement's result set to the caller; the session no
longer holds it afterwards. -/
def mysql_store_result (conn : MYSQL) : Option MYSQL_RES × MYSQL :=
  (conn.current, { conn with current := none })

/-- The next row of a buffered result set and the advanced cursor, or `none`
(the null pointer) when no row is left. -/
def mysql_fetch_row (result : MYSQL_RES) : Option (MYSQL_ROW × MYSQL_RES) :=
  match result.rows with
  | [] => none
  | row :: rest => some (row, { result with rows := rest })

/-- The number of columns of a result set. -/
def mysql_num_fields (result : MYSQL_RES) : Nat := result.num_fields

/-- Whether the multi-statement query has results after the current one. -/
def mysql_more_results (conn : MYSQL) : Bool := !conn.more.isEmpty

/-- The message the library records for the error `CR_COMMANDS_OUT_OF_SYNC`. -/
def commandsOutOfSync : String :=
  "Commands out of sync; you can" ++ String.mk [Char.ofNat 39] ++ "t run this command now"

/-- The status code of `mysql_next_result` and the session afterwards.  While
the current result set has not been fetched the library refuses with the
code 1, records `CR_COMMANDS_OUT_OF_SYNC` and leaves the results as they are;
otherwise it moves to the next result (code 0), or answers -1 when there is
none. -/
def mysql_next_result (conn : MYSQL) : Int × MYSQL :=
  if conn.current.isSome then (1, { conn with error := commandsOutOfSync })
  else
    match conn.more with
    | [] => (-1, conn)
    | r :: rest => (0, { conn with current := r, more := rest })

/-- The C++ conversion `(int)` of an `unsigned int`. -/
def toInt32 (n : Nat) : Int :=
  if n % 2 ^ 32 < 2 ^ 31 then ((n % 2 ^ 32 : Nat) : Int) else ((n % 2 ^ 32 : Nat) : Int) - 2 ^ 32

/-! ## The object and the calls it makes -/

/-- The data members of `SQLConnection`.  `conn` is `none` for the null
pointer.  The members `result` and `row` are never read by any method
(`infoQuery` and `selectQuery` declare locals of the same names); `result` is
kept as the null pointer the constructor stores. -/
structure SQLConnection where
  conn : Option MYSQL
  result : Option MYSQL_RES
  server : String
  user : String
  password : String
  database : String
  port : Int
  index : Int
deriving DecidableEq, Repr

/-- What the object has done to the outside so far: the number of
`mysql_real_connect` calls, the seconds slept, the texts passed to
`mysql_query`, the number of `mysql_close` calls and the lines written to
standard output. -/
structure World where
  connects : Nat
  slept : Nat
  queries : List String
  closes : Nat
  stdout : List String
deriving DecidableEq, Repr

/-- The object together with the record of its calls. -/
structure State where
  self : SQLConnection
  world : World
deriving DecidableEq, Repr

/-- The ways the C++ code leaves defined behaviour. -/
inductive Fault where
  | nullString      -- a `std::string` built from a null `char*`
  | outOfBounds     -- `row[i]` past the last column
  | nullHandle      -- the library called with a null `MYSQL*`
  | bufferOverflow  -- the library writes past the end of the buffer
deriving DecidableEq, Repr

deriving instance DecidableEq for Except

/-- The constructor: stores the parameters, both pointers null.  In C++ the
last parameter may be left out and is then `-1`. -/
def SQLConnection.ctor (server : String) (port : Int) (user password database : String)
    (id : Int) : SQLConnection :=
  { conn := none, result := none, server := server, user := user, password := password,
    database := database, port := port, index := id }

/-- The value and the side effect of the C++ expression `x--`: the expression
has the value `x` had before, the variable holds `x - 1` afterwards. -/
def postDecrement (x : Int) : Int × Int := (x, x - 1)

/-- The outcome of running `connect` with a bound on the recursion depth:
either the call returned, or the bound was reached with the call still
active, in the state reached by then. -/
inductive ConnectRun where
  | returned (success : Bool) (s : State)
  | active (s : State)
deriving DecidableEq, Repr

/-- `SQLConnection::connect`.  `depth` bounds the number of nested calls. -/
def connect (srv : Server) : (depth : Nat) → (retry : Int) → State → ConnectRun
  | 0, _, s => .active s
  | depth + 1, retry, s =>
    if retry ≤ 0 then
      .returned false
        { s with world := { s.world with stdout := s.world.stdout ++
            ["Failed to connect to host=" ++ s.self.server ++ " db=" ++ s.self.database
              ++ " user=" ++ s.self.user] } }
    else
      -- `mysql_init`, `mysql_options`, `mysql_real_connect`; the result is stored in `conn`
      let conn := srv.real_connect (c_str s.self.server) (c_str s.self.user)
        (c_str s.self.password) (c_str s.self.database) s.self.port s.world.connects
      let s1 : State :=
        { self := { s.self with conn := conn },
          world := { s.world with connects := s.world.connects + 1 } }
      match conn with
      | some _ => .returned true s1
      | none =>
        -- sleep one second, then `connect(retry--)`
        let s2 : State := { s1 with world := { s1.world with slept := s1.world.slept + 1 } }
        let (arg, _retry) := postDecrement retry
        connect srv depth arg s2

/-- `SQLConnection::close`. -/
def close (s : State) : Bool × State :=
  match s.self.conn with
  | some _ =>
    (true, { self := { s.self with conn := none },
             world := { s.world with closes := s.world.closes + 1 } })
  | none => (false, s)

/-- `SQLConnection::isValide`. -/
def isValide (self : SQLConnection) : Bool :=
  match self.conn with
  | some conn => conn.server_status == MYSQL_STATUS_READY
  | none => false

/-- The outcome of running the loop of `checkQuery` with a bound on its
iterations: either the loop ended, or the bound was reached with the loop
condition still true, on the session reached by then. -/
inductive DrainRun where
  | done (conn : MYSQL)
  | looping (conn : MYSQL)
deriving DecidableEq, Repr

/-- The loop `while (mysql_more_results(conn)) mysql_next_result(conn);`, the
status code of `mysql_next_result` being ignored.  `bound` bounds the number
of iterations. -/
def drainResults : (bound : Nat) → MYSQL → DrainRun
  | 0, conn => if mysql_more_results conn then .looping conn else .done conn
  | bound + 1, conn =>
    if mysql_more_results conn then drainResults bound (mysql_next_result conn).2
    else .done conn

/-- The outcome of running `checkQuery` with a bound on the iterations of its
loop: either the call returned (the flag, the `error` out-parameter and the
state afterwards), or the bound was reached with the call still inside the
loop, in the state reached by then. -/
inductive CheckRun where
  | returned (success : Bool) (error : String) (s : State)
  | active (s : State)
deriving DecidableEq, Repr

/-- `SQLConnection::checkQuery`.  `bound` bounds the iterations of the loop
over the further results. -/
def checkQuery (srv : Server) (bound : Nat) (s : State) (query : String) (error : String) :
    CheckRun :=
  if isValide s.self then
    match s.self.conn with
    | some conn =>
      let (code, conn1) := srv.query conn (c_str query)
      let world1 : World := { s.world with queries := s.world.queries ++ [c_str query] }
      if code ≠ 0 then
        .returned false (mysql_error conn1)
          { self := { s.self with conn := some conn1 }, world := world1 }
      else
        match drainResults bound conn1 with
        | .done conn2 =>
          .returned true error { self := { s.self with conn := some conn2 }, world := world1 }
        | .looping conn2 =>
          .active { self := { s.self with conn := some conn2 }, world := world1 }
    | none => .returned false error s
  else .returned false error s

/-- The fetch loop of `infoQuery`: every iteration takes the next row from the
cursor and appends `std::string(row[0])`, the C string at `row[0]`, to
`rows`. -/
def infoFetchLoop : (remaining : List MYSQL_ROW) → (rows : List String) →
    Except Fault (List String)
  | [], rows => .ok rows
  | row :: remaining, rows =>
    match row.get? 0 with
    | none => .error .outOfBounds
    | some none => .error .nullString
    | some (some v) => infoFetchLoop remaining (rows ++ [c_str v])

/-- `SQLConnection::infoQuery`: the returned vector, the `error` out-parameter
and the state afterwards. -/
def infoQuery (srv : Server) (s : State) (query : String) (error : String) :
    Except Fault (List String × String × State) :=
  match s.self.conn with
  | some conn =>
    let (code, conn1) := srv.query conn (c_str query)
    let world1 : World := { s.world with queries := s.world.queries ++ [c_str query] }
    if code ≠ 0 then
      .ok ([], mysql_error conn1, { self := { s.self with conn := some conn1 }, world := world1 })
    else
      let (result, conn2) := mysql_store_result conn1
      let s2 : State := { self := { s.self with conn := some conn2 }, world := world1 }
      match result with
      | some res =>
        match infoFetchLoop res.rows [] with
        | .ok rows => .ok (rows, error, s2)
        | .error f => .error f
      | none => .ok ([], error, s2)
  | none => .ok ([], "ERROR: DB connection is not available !", s)

/-- The column loop of `selectQuery` over the indices still to visit:
`"NULL"` for a null pointer, `std::string(row[i])`, the C string at `row[i]`,
otherwise, appended to `temp`. -/
def selectColumnLoop (row : MYSQL_ROW) : (indices : List Nat) → (temp : List String) →
    Except Fault (List String)
  | [], temp => .ok temp
  | i :: indices, temp =>
    match row.get? i with
    | none => .error .outOfBounds
    | some none => selectColumnLoop row indices (temp ++ ["NULL"])
    | some (some v) => selectColumnLoop row indices (temp ++ [c_str v])

/-- The fetch loop of `selectQuery`: for every row the columns
`0 ≤ i < (int)mysql_num_fields(result)` are copied into `temp`, and `temp` is
appended to `rows` unless it is empty. -/
def selectFetchLoop (num_fields : Nat) : (remaining : List MYSQL_ROW) →
    (rows : List (List String)) → Except Fault (List (List String))
  | [], rows => .ok rows
  | row :: remaining, rows =>
    match selectColumnLoop row (List.range (toInt32 num_fields).toNat) [] with
    | .ok temp =>
      selectFetchLoop num_fields remaining (if temp.isEmpty then rows else rows ++ [temp])
    | .error f => .error f

/-- `SQLConnection::selectQuery`: the returned vector of rows, the `error`
out-parameter and the state afterwards. -/
def selectQuery (srv : Server) (s : State) (query : String) (error : String) :
    Except Fault (List (List String) × String × State) :=
  match s.self.conn with
  | some conn =>
    let (code, conn1) := srv.query conn (c_str query)
    let world1 : World := { s.world with queries := s.world.queries ++ [c_str query] }
    if code ≠ 0 then
      .ok ([], mysql_error conn1, { self := { s.self with conn := some conn1 }, world := world1 })
    else
      let (result, conn2) := mysql_store_result conn1
      let s2 : State := { self := { s.self with conn := some conn2 }, world := world1 }
      match result with
      | some res =>
        match selectFetchLoop (mysql_num_fields res) res.rows [] with
        | .ok rows => .ok (rows, error, s2)
        | .error f => .error f
      | none => .ok ([], error, s2)
  | none => .ok ([], "ERROR: DB connection is not available !", s)

/-- `SQLConnection::escapeString`.  `ret` is resized to `2 * length + 2`
zero bytes; the library writes the escaped text and a terminating byte at the
start of that buffer; the whole buffer is returned. -/
def escapeString (srv : Server) (self : SQLConnection) (_str : String) : Except Fault String :=
  let ret : List Char := List.replicate (_str.length * 2 + 2) NUL
  match self.conn with
  | none => .error .nullHandle
  | some conn =>
    let written : List Char := (srv.real_escape_string conn _str).data ++ [NUL]
    if written.length ≤ ret.length then
      .ok (String.mk (written ++ ret.drop written.length))
    else .error .bufferOverflow

/-! ## Notions the statements use -/

/-- The state in which a query method leaves the object after it passed
`query` to `mysql_query` on the session `conn` and the session became
`conn1`. -/
def afterQuery (s : State) (query : String) (conn1 : MYSQL) : State :=
  { self := { s.self with conn := some conn1 },
    world := { s.world with queries := s.world.queries ++ [c_str query] } }

/-- The text a cell has in a row that `selectQuery` returns: `"NULL"` for a
database NULL, otherwise the column value up to its first zero byte. -/
def cellText (cell : Option String) : String :=
  match cell with
  | none => "NULL"
  | some v => c_str v

/-- A result set as the library buffers it: every row has one cell per
column, and the column count is one an `int` can hold. -/
def MYSQL_RES.WellFormed (res : MYSQL_RES) : Prop :=
  res.num_fields < 2 ^ 31 ∧ ∀ row ∈ res.rows, row.length = res.num_fields

instance (res : MYSQL_RES) : Decidable res.WellFormed := by
  unfold MYSQL_RES.WellFormed; infer_instance

/-- The projection the refinement statement speaks of: the first entry of
every row of a table of texts. -/
def firstColumn (rows : List (List String)) : List String :=
  rows.filterMap List.head?

/-! ## Concrete sessions used to instantiate the general theorems -/

/-- A three-column result set with one database NULL. -/
def sampleResult : MYSQL_RES :=
  { num_fields := 3, rows := [[some "v1", none, some "v3"], [some "a", some "b", some "c"]] }

/-- A session as a server in autocommit mode establishes it. -/
def autocommitSession : MYSQL :=
  { server_status := SERVER_STATUS_AUTOCOMMIT, error := "", current := none, more := [] }

/-- A session whose `server_status` is zero. -/
def readySession : MYSQL :=
  { server_status := 0, error := "", current := none, more := [] }

/-- The result set of `SELECT NULL`: one column, one row, a database NULL. -/
def nullResult : MYSQL_RES := { num_fields := 1, rows := [[none]] }

/-- The escaping of one character that the MySQL reference manual documents
for `mysql_real_escape_string` in the default SQL mode: a backslash before
backslash, single quote and double quote, and the two-character forms for the
zero byte, newline, carriage return and Control-Z. -/
def mysqlEscapeChar (c : Char) : List Char :=
  if c = Char.ofNat 0 then [Char.ofNat 92, Char.ofNat 48]
  else if c = Char.ofNat 10 then [Char.ofNat 92, Char.ofNat 110]
  else if c = Char.ofNat 13 then [Char.ofNat 92, Char.ofNat 114]
  else if c = Char.ofNat 26 then [Char.ofNat 92, Char.ofNat 90]
  else if c = Char.ofNat 92 ∨ c = Char.ofNat 39 ∨ c = Char.ofNat 34 then [Char.ofNat 92, c]
  else [c]

/-- The escaped text of a whole string under `mysqlEscapeChar`. -/
def mysqlEscape (s : String) : String := String.mk (s.data.flatMap mysqlEscapeChar)

/-- Reading an escaped text back, as a server reads a quoted literal in the
default SQL mode: a backslash gives the character after it its meaning (`0`,
`n`, `r`, `Z` the four control characters, any other character itself), every
other character stands for itself.  `escaped` tells that the character before
was such a backslash. -/
def mysqlUnescapeFrom : (escaped : Bool) → List Char → List Char
  | _, [] => []
  | true, c :: rest =>
    (if c = Char.ofNat 48 then Char.ofNat 0
     else if c = Char.ofNat 110 then Char.ofNat 10
     else if c = Char.ofNat 114 then Char.ofNat 13
     else if c = Char.ofNat 90 then Char.ofNat 26
     else c) :: mysqlUnescapeFrom false rest
  | false, c :: rest =>
    if c = Char.ofNat 92 then mysqlUnescapeFrom true rest else c :: mysqlUnescapeFrom false rest

/-- The text an escaped string denotes. -/
def mysqlUnescape (s : String) : String := String.mk (mysqlUnescapeFrom false s.data)

/-- A text made of a single quote and a backslash. -/
def quoteBackslash : String := String.mk [Char.ofNat 39, Char.ofNat 92]

/-- A server that accepts every connection with a session whose
`server_status` is zero, answers the statement `"rows"` with `sampleResult`
and `"SELECT NULL"` with `nullResult`, rejects every other statement, and
escapes as `mysqlEscape` does. -/
def sampleServer : Server :=
  { real_connect := fun _ _ _ _ _ _ => some readySession
    query := fun conn q =>
      if q = "rows" then (0, { conn with current := some sampleResult })
      else if q = "SELECT NULL" then (0, { conn with current := some nullResult })
      else (1, { conn with error := "You have an error in your SQL syntax" })
    real_escape_string := fun _ s => mysqlEscape s }

/-- A column value of three characters with a zero byte in the middle:
`a`, the zero byte, `b`. -/
def zeroByteText : String := String.mk [Char.ofNat 97, NUL, Char.ofNat 98]

/-- A one-column result set whose only value is `zeroByteText`. -/
def zeroByteResult : MYSQL_RES := { num_fields := 1, rows := [[some zeroByteText]] }

/-- The server `sampleServer`, which in addition answers the statement
`"bytes"` with `zeroByteResult`. -/
def zeroByteServer : Server :=
  { sampleServer with
    query := fun conn q =>
      if q = "bytes" then (0, { conn with current := some zeroByteResult })
      else sampleServer.query conn q }

/-- The server `sampleServer`, which in addition answers the two-statement
query `"SELECT 1; SELECT 2"` with the status 0, the result set of the first
statement waiting to be fetched and that of the second one after it. -/
def multiStatementServer : Server :=
  { sampleServer with
    query := fun conn q =>
      if q = "SELECT 1; SELECT 2" then
        (0, { conn with current := some { num_fields := 1, rows := [[some "1"]] },
                        more := [some { num_fields := 1, rows := [[some "2"]] }] })
      else sampleServer.query conn q }

/-- A server that is unreachable: every connection attempt fails. -/
def unreachableServer : Server :=
  { sampleServer with real_connect := fun _ _ _ _ _ _ => none }

/-- A server that establishes every session in autocommit mode. -/
def autocommitServer : Server :=
  { sampleServer with real_connect := fun _ _ _ _ _ _ => some autocommitSession }

/-- The state of the spec's scenario before `connect`. -/
def freshState : State :=
  { self := SQLConnection.ctor "localhost" 3306 "t" "p" "testdb" (-1),
    world := { connects := 0, slept := 0, queries := [], closes := 0, stdout := [] } }

/-- The same object holding a session whose `server_status` is zero. -/
def connectedState : State :=
  { freshState with self := { freshState.self with conn := some readySession } }

/-! ## Closing and validity -/

/-- `isValide()` holds exactly when the handle is present and the member
`server_status` of the session equals `MYSQL_STATUS_READY`. -/
theorem isValide_iff (self : SQLConnection) :
    isValide self = true ↔
      ∃ conn, self.conn = some conn ∧ conn.server_status = MYSQL_STATUS_READY := by
  unfold isValide
  cases hc : self.conn with
  | none => simp
  | some conn => simp

/-- A freshly constructed object is not valid. -/
theorem isValide_ctor (server : String) (port : Int) (user password database : String)
    (id : Int) : isValide (SQLConnection.ctor server port user password database id) = false := by
  simp [isValide, SQLConnection.ctor]

/-- C4: on an object whose session handle is present the first `close()`
returns true, calls `mysql_close` once and leaves the handle absent with every
other member as it was; a second `close()` returns false and leaves the state
unchanged; `isValide()` is false after the first and after the second
`close()`, and after a `close()` in any state; and on a freshly constructed
object `close()` returns false and changes nothing. -/
theorem close_idempotent (s : State) (h : s.self.conn ≠ none) :
    close s = (true, { self := { s.self with conn := none },
                       world := { s.world with closes := s.world.closes + 1 } }) ∧
    (close s).2.self.conn = none ∧
    close (close s).2 = (false, (close s).2) ∧
    isValide (close s).2.self = false ∧
    isValide (close (close s).2).2.self = false ∧
    (∀ s0 : State, isValide (close s0).2.self = false) ∧
    (∀ (server : String) (port : Int) (user password database : String) (id : Int) (w : World),
      close { self := SQLConnection.ctor server port user password database id, world := w }
        = (false, { self := SQLConnection.ctor server port user password database id,
                    world := w })) := by
  cases hc : s.self.conn with
  | none => exact absurd hc h
  | some conn =>
    refine ⟨?_, ?_, ?_, ?_, ?_, ?_, ?_⟩
    · simp [close, hc]
    · simp [close, hc]
    · simp [close, hc]
    · simp [close, hc, isValide]
    · simp [close, hc, isValide]
    · intro s0
      cases h0 : s0.self.conn with
      | none => simp [close, h0, isValide]
      | some c0 => simp [close, h0, isValide]
    · intro server port user password database id w
      simp [close, SQLConnection.ctor]

/-- C4 on a connected object: the second `close()` returns false and changes
nothing. -/
theorem close_idempotent_witness :
    close (close connectedState).2 = (false, (close connectedState).2) :=
  (close_idempotent connectedState (by decide)).2.2.1

/-! ## Calls without a usable session -/

/-- C7: with the session handle absent, `infoQuery` and `selectQuery` return
the empty vector, set `error` to the fixed text, and leave the whole state as
it was: the object is unchanged and no text was passed to `mysql_query`. -/
theorem queries_without_handle (srv : Server) (s : State) (query error : String)
    (h : s.self.conn = none) :
    infoQuery srv s query error = .ok ([], "ERROR: DB connection is not available !", s) ∧
    selectQuery srv s query error = .ok ([], "ERROR: DB connection is not available !", s) := by
  simp [infoQuery, selectQuery, h]

/-- C8: when `isValide()` is false, `checkQuery` returns (whatever the bound
on its loop, which it does not reach) false, leaves `error` as it was and
leaves the whole state as it was (no text was passed to `mysql_query`); a
freshly constructed object is such a case. -/
theorem checkQuery_invalid (srv : Server) (bound : Nat) (s : State) (query error : String)
    (h : isValide s.self = false) :
    checkQuery srv bound s query error = .returned false error s ∧
    (∀ (server : String) (port : Int) (user password database : String) (id : Int) (w : World),
      checkQuery srv bound { self := SQLConnection.ctor server port user password database id,
                             world := w } query error
        = .returned false error
            { self := SQLConnection.ctor server port user password database id, world := w }) := by
  constructor
  · simp [checkQuery, h]
  · intro server port user password database id w
    simp [checkQuery, isValide_ctor]

/-- C7 on the freshly constructed object of the spec's scenario. -/
theorem queries_without_handle_witness :
    infoQuery sampleServer freshState "rows" ""
      = .ok ([], "ERROR: DB connection is not available !", freshState) :=
  (queries_without_handle sampleServer freshState "rows" "" (by decide)).1

/-- C8 on the freshly constructed object of the spec's scenario. -/
theorem checkQuery_invalid_witness :
    checkQuery sampleServer 0 freshState "rows" "unset" = .returned false "unset" freshState :=
  (checkQuery_invalid sampleServer 0 freshState "rows" "unset" (by decide)).1

/-! ## Failing statements -/

/-- For a statement on which `mysql_query` reports a non-zero status on the
present session: `checkQuery` returns false, with `error` set to the message
of `mysql_error` when the session is valid (the statement was run) and with
nothing changed when it is not; `infoQuery` and `selectQuery` return the
empty vector with `error` set to that message. -/
theorem query_failure_reported (srv : Server) (bound : Nat) (s : State) (query error : String)
    (conn : MYSQL) (hconn : s.self.conn = some conn)
    (hcode : (srv.query conn (c_str query)).1 ≠ 0) :
    (isValide s.self = true →
      checkQuery srv bound s query error
        = .returned false (mysql_error (srv.query conn (c_str query)).2)
            (afterQuery s query (srv.query conn (c_str query)).2)) ∧
    (isValide s.self = false →
      checkQuery srv bound s query error = .returned false error s) ∧
    infoQuery srv s query error
      = .ok ([], mysql_error (srv.query conn (c_str query)).2,
          afterQuery s query (srv.query conn (c_str query)).2) ∧
    selectQuery srv s query error
      = .ok ([], mysql_error (srv.query conn (c_str query)).2,
          afterQuery s query (srv.query conn (c_str query)).2) := by
  refine ⟨?_, ?_, ?_, ?_⟩
  · intro hv
    simp [checkQuery, hv, hconn, hcode, afterQuery]
  · intro hv
    simp [checkQuery, hv]
  · simp [infoQuery, hconn, hcode, afterQuery]
  · simp [selectQuery, hconn, hcode, afterQuery]

/-- Whenever `checkQuery` returns true, the session was valid (handle present,
`server_status` equal to `MYSQL_STATUS_READY`) and the status of the statement
was zero. -/
theorem checkQuery_true_only_if (srv : Server) (bound : Nat) (s s1 : State)
    (query error error1 : String)
    (h : checkQuery srv bound s query error = .returned true error1 s1) :
    ∃ conn, s.self.conn = some conn ∧ conn.server_status = MYSQL_STATUS_READY ∧
      (srv.query conn (c_str query)).1 = 0 := by
  unfold checkQuery at h
  cases hc : s.self.conn with
  | none => simp [isValide, hc] at h
  | some conn =>
    by_cases hst : conn.server_status = MYSQL_STATUS_READY
    · by_cases h0 : (srv.query conn (c_str query)).1 = 0
      · exact ⟨conn, rfl, hst, h0⟩
      · simp [isValide, hc, hst, h0] at h
    · simp [isValide, hc, hst] at h

/-- On a valid session, a statement with status zero that leaves no further
result makes `checkQuery` return true with `error` as it was, the loop not
being entered. -/
theorem checkQuery_true_of_single_result (srv : Server) (bound : Nat) (s : State)
    (query error : String) (conn : MYSQL) (hconn : s.self.conn = some conn)
    (hready : conn.server_status = MYSQL_STATUS_READY)
    (hcode : (srv.query conn (c_str query)).1 = 0)
    (hmore : (srv.query conn (c_str query)).2.more = []) :
    checkQuery srv bound s query error
      = .returned true error (afterQuery s query (srv.query conn (c_str query)).2) := by
  have hd : drainResults bound (srv.query conn (c_str query)).2
      = .done (srv.query conn (c_str query)).2 := by
    cases bound <;> simp [drainResults, mysql_more_results, hmore]
  simp [checkQuery, isValide, hconn, hready, hcode, hd, afterQuery]

/-- While the current result set is unfetched and a further result exists,
the loop of `checkQuery` is still running at every bound: `mysql_next_result`
refuses and `mysql_more_results` stays true. -/
theorem drainResults_stuck (bound : Nat) (conn : MYSQL) (hcur : conn.current ≠ none)
    (hmore : conn.more ≠ []) :
    ∃ conn1, drainResults bound conn = .looping conn1 := by
  have hm : mysql_more_results conn = true := by
    cases hl : conn.more with
    | nil => exact absurd hl hmore
    | cons r rest => simp [mysql_more_results, hl]
  have hs : conn.current.isSome = true := by
    cases hc : conn.current with
    | none => exact absurd hc hcur
    | some r => rfl
  induction bound generalizing conn with
  | zero => exact ⟨conn, by simp [drainResults, hm]⟩
  | succ bound ih =>
    have hnext : (mysql_next_result conn).2 = { conn with error := commandsOutOfSync } := by
      simp [mysql_next_result, hs]
    rw [drainResults, if_pos hm, hnext]
    exact ih { conn with error := commandsOutOfSync } hcur hmore hm hs

/-- C9, the behaviour of the code where the claim fails: on a valid session
(handle present, `server_status` equal to `MYSQL_STATUS_READY`), for a query
with status zero that leaves a result set to fetch and a further result
after it, `checkQuery` has not returned at any bound on its loop: it does not
return true although the session is valid and the status is zero. -/
theorem checkQuery_drain_never_returns (srv : Server) (bound : Nat) (s : State)
    (query error : String) (conn : MYSQL) (hconn : s.self.conn = some conn)
    (hready : conn.server_status = MYSQL_STATUS_READY)
    (hcode : (srv.query conn (c_str query)).1 = 0)
    (hcur : (srv.query conn (c_str query)).2.current ≠ none)
    (hmore : (srv.query conn (c_str query)).2.more ≠ []) :
    isValide s.self = true ∧
    ∃ s1, checkQuery srv bound s query error = .active s1 := by
  obtain ⟨conn1, h1⟩ := drainResults_stuck bound _ hcur hmore
  refine ⟨by simp [isValide, hconn, hready], ?_⟩
  exact ⟨_, by simp [checkQuery, isValide, hconn, hready, hcode, h1]; rfl⟩

/-- C9 at the failing input: the two-statement query `SELECT 1; SELECT 2` on a
valid session is still inside the loop after five iterations. -/
theorem checkQuery_drain_never_returns_witness :
    isValide connectedState.self = true ∧
    ∃ s1, checkQuery multiStatementServer 5 connectedState "SELECT 1; SELECT 2" ""
      = .active s1 :=
  checkQuery_drain_never_returns multiStatementServer 5 connectedState "SELECT 1; SELECT 2" ""
    readySession (by decide) (by decide) (by decide) (by decide) (by decide)

/-! ## Result rows -/

/-- The conversion to `int` keeps a column count below `2 ^ 31`. -/
theorem toInt32_of_lt (n : Nat) (h : n < 2 ^ 31) : (toInt32 n).toNat = n := by
  have h32 : n % 2 ^ 32 = n := Nat.mod_eq_of_lt (by omega)
  unfold toInt32
  rw [h32, if_pos h]
  simp

/-- The loops as written over the remaining rows are the loops of the source
over `mysql_fetch_row`: one iteration per row the cursor hands out, the end
when it returns the null pointer. -/
theorem fetchLoops_follow_cursor (result : MYSQL_RES) :
    (∀ rows, infoFetchLoop result.rows rows =
      match mysql_fetch_row result with
      | none => .ok rows
      | some (row, result1) =>
        match row.get? 0 with
        | none => .error .outOfBounds
        | some none => .error .nullString
        | some (some v) => infoFetchLoop result1.rows (rows ++ [c_str v])) ∧
    (∀ rows, selectFetchLoop (mysql_num_fields result) result.rows rows =
      match mysql_fetch_row result with
      | none => .ok rows
      | some (row, result1) =>
        match selectColumnLoop row (List.range (toInt32 (mysql_num_fields result)).toNat) [] with
        | .ok temp =>
          selectFetchLoop (mysql_num_fields result1) result1.rows
            (if temp.isEmpty then rows else rows ++ [temp])
        | .error f => .error f) := by
  cases hr : result.rows with
  | nil => simp [mysql_fetch_row, hr, infoFetchLoop, selectFetchLoop]
  | cons row rest => simp [mysql_fetch_row, hr, infoFetchLoop, selectFetchLoop, mysql_num_fields]

/-- The column loop started at column `a` with `n` columns to go copies the
cells `a, …, a + n - 1` of the row. -/
theorem selectColumnLoop_range (row : MYSQL_ROW) :
    ∀ (n a : Nat) (temp : List String), a + n ≤ row.length →
      selectColumnLoop row (List.range' a n) temp
        = .ok (temp ++ ((row.drop a).take n).map cellText) := by
  intro n
  induction n with
  | zero => intro a temp _; simp [selectColumnLoop]
  | succ n ih =>
    intro a temp h
    have ha : a < row.length := by omega
    have hd : row.drop a = row[a] :: row.drop (a + 1) := List.drop_eq_getElem_cons ha
    have hg : row.get? a = some row[a] := by simp [List.getElem?_eq_getElem ha]
    rw [List.range'_succ, selectColumnLoop, hg, hd]
    cases hcell : row[a] with
    | none =>
      simp only [List.take_succ_cons, List.map_cons]
      rw [ih (a + 1) _ (by omega)]
      simp [cellText]
    | some v =>
      simp only [List.take_succ_cons, List.map_cons]
      rw [ih (a + 1) _ (by omega)]
      simp [cellText]

/-- The column loop over all columns of a row copies the whole row. -/
theorem selectColumnLoop_full (row : MYSQL_ROW) :
    selectColumnLoop row (List.range row.length) [] = .ok (row.map cellText) := by
  rw [List.range_eq_range', selectColumnLoop_range row row.length 0 [] (by omega)]
  simp

/-- On rows of `k ≥ 1` cells the fetch loop of `selectQuery` appends every
row, in order, converted cell by cell. -/
theorem selectFetchLoop_wf (k : Nat) (hk : 1 ≤ k) (hint : k < 2 ^ 31) :
    ∀ (remaining : List MYSQL_ROW) (rows : List (List String)),
      (∀ row ∈ remaining, row.length = k) →
      selectFetchLoop k remaining rows = .ok (rows ++ remaining.map (fun row => row.map cellText)) := by
  intro remaining
  induction remaining with
  | nil => intro rows _; simp [selectFetchLoop]
  | cons row rest ih =>
    intro rows h
    have hlen : row.length = k := h row (by simp)
    have hne : (row.map cellText).isEmpty = false := by
      cases row with
      | nil => simp at hlen; omega
      | cons c cs => simp
    rw [selectFetchLoop, toInt32_of_lt k hint, ← hlen, selectColumnLoop_full]
    simp only [hne]
    rw [hlen, ih _ (fun r hr => h r (by simp [hr]))]
    simp

/-- On rows whose first cell is not a database NULL the fetch loop of
`infoQuery` appends the first cell of every row, in order. -/
theorem infoFetchLoop_ok :
    ∀ (remaining : List MYSQL_ROW) (rows : List String),
      (∀ row ∈ remaining, ∃ v, row.head? = some (some v)) →
      infoFetchLoop remaining rows
        = .ok (rows ++ firstColumn (remaining.map (fun row => row.map cellText))) := by
  intro remaining
  induction remaining with
  | nil => intro rows _; simp [infoFetchLoop, firstColumn]
  | cons row rest ih =>
    intro rows h
    obtain ⟨v, hv⟩ := h row (by simp)
    cases row with
    | nil => simp at hv
    | cons c cs =>
      simp at hv
      subst hv
      rw [infoFetchLoop]
      simp only [List.get?_cons_zero]
      rw [ih _ (fun r hr => h r (by simp [hr]))]
      simp [firstColumn, cellText]

/-- A column value without a zero byte is its own C string. -/
theorem c_str_of_no_zero_byte (v : String) (h : NUL ∉ v.data) : c_str v = v := by
  have ht : v.data.takeWhile (fun c => c != NUL) = v.data := by
    rw [List.takeWhile_eq_self_iff]
    intro c hc
    have hne : c ≠ NUL := fun heq => h (heq ▸ hc)
    simpa using hne
  unfold c_str
  rw [ht]

/-- C5 as the code has it: when the statement succeeds on the present session
and its buffered result set has `n` rows of `k ≥ 1` columns, `selectQuery`
returns, leaving `error` as it was, exactly `n` rows in result-set order, each
of length `k`, every cell being `"NULL"` for a database NULL and otherwise the
column value up to its first zero byte; when no column value contains a zero
byte, every cell that is not NULL is the whole column value. -/
theorem selectQuery_rows_as_c_strings (srv : Server) (s : State) (query error : String)
    (conn : MYSQL) (res : MYSQL_RES) (hconn : s.self.conn = some conn)
    (hcode : (srv.query conn (c_str query)).1 = 0)
    (hres : (srv.query conn (c_str query)).2.current = some res)
    (hk : 1 ≤ res.num_fields) (hwf : res.WellFormed) :
    ∃ rows s1, selectQuery srv s query error = .ok (rows, error, s1) ∧
      rows = res.rows.map (fun row => row.map (fun cell =>
        match cell with
        | none => "NULL"
        | some v => c_str v)) ∧
      rows.length = res.rows.length ∧
      (∀ row ∈ rows, row.length = res.num_fields) ∧
      ((∀ row ∈ res.rows, ∀ v, some v ∈ row → NUL ∉ v.data) →
        rows = res.rows.map (fun row => row.map (fun cell => cell.getD "NULL"))) := by
  have hloop := selectFetchLoop_wf res.num_fields hk hwf.1 res.rows [] hwf.2
  refine ⟨res.rows.map (fun row => row.map cellText),
    afterQuery s query { (srv.query conn (c_str query)).2 with current := none },
    ?_, ?_, by simp, ?_, ?_⟩
  · simp only [selectQuery, hconn, hcode, mysql_store_result, hres, mysql_num_fields, hloop]
    simp [afterQuery]
  · apply List.map_congr_left
    intro row _
    apply List.map_congr_left
    intro cell _
    cases cell <;> rfl
  · intro row hrow
    obtain ⟨r, hr, rfl⟩ := List.mem_map.1 hrow
    simpa using hwf.2 r hr
  · intro hz
    apply List.map_congr_left
    intro row hrow
    apply List.map_congr_left
    intro cell hcell
    cases cell with
    | none => rfl
    | some v =>
      show c_str v = v
      exact c_str_of_no_zero_byte v (hz row hrow v hcell)

/-- C5 as the code has it, on the spec's example: the row `(v1, NULL, v3)` is
returned as `["v1", "NULL", "v3"]`. -/
theorem selectQuery_rows_as_c_strings_witness :
    ∃ rows s1, selectQuery sampleServer connectedState "rows" "" = .ok (rows, "", s1) ∧
      rows = [["v1", "NULL", "v3"], ["a", "b", "c"]] ∧
      rows.length = 2 ∧
      (∀ row ∈ rows, row.length = 3) ∧
      ((∀ row ∈ sampleResult.rows, ∀ v, some v ∈ row → NUL ∉ v.data) →
        rows = [["v1", "NULL", "v3"], ["a", "b", "c"]]) :=
  selectQuery_rows_as_c_strings sampleServer connectedState "rows" "" readySession sampleResult
    (by decide) (by decide) (by decide) (by decide) (by decide)

/-- C5 as stated fails: the statement `"bytes"` succeeds with a buffered
result set of one row and one column whose value is the three characters
`a`, zero byte, `b`; `selectQuery` returns the one-character text `a` for that
cell, not the text of the column. -/
theorem selectQuery_stops_at_zero_byte :
    (zeroByteServer.query readySession (c_str "bytes")).1 = 0 ∧
    (zeroByteServer.query readySession (c_str "bytes")).2.current
      = some { num_fields := 1, rows := [[some zeroByteText]] } ∧
    selectQuery zeroByteServer connectedState "bytes" ""
      = .ok ([["a"]], "", afterQuery connectedState "bytes" readySession) ∧
    zeroByteText.length = 3 ∧
    ¬ ∃ s1, selectQuery zeroByteServer connectedState "bytes" ""
      = .ok ([[zeroByteText]], "", s1) := by
  refine ⟨by decide, by decide, by decide, by decide, ?_⟩
  rintro ⟨s1, h⟩
  have h2 : selectQuery zeroByteServer connectedState "bytes" ""
      = .ok ([["a"]], "", afterQuery connectedState "bytes" readySession) := by decide
  rw [h2] at h
  injection h with h
  have h3 : [["a"]] = [[zeroByteText]] := congrArg Prod.fst h
  exact absurd h3 (by decide)

/-- C6, at the failing input: on a connected object the statement
`SELECT NULL` succeeds with a one-row, one-column result set, `selectQuery`
returns the row `["NULL"]`, and `infoQuery` builds a `std::string` from the
null pointer `row[0]`, which is undefined behaviour, instead of returning a
one-element vector. -/
theorem infoQuery_null_first_column :
    infoQuery sampleServer connectedState "SELECT NULL" "" = .error .nullString ∧
    (sampleServer.query readySession (c_str "SELECT NULL")).1 = 0 ∧
    (sampleServer.query readySession (c_str "SELECT NULL")).2.current
      = some { num_fields := 1, rows := [[none]] } ∧
    ∃ s1, selectQuery sampleServer connectedState "SELECT NULL" "" = .ok ([["NULL"]], "", s1) := by
  refine ⟨by decide, by decide, by decide,
    afterQuery connectedState "SELECT NULL" readySession, by decide⟩

/-- C10: whenever a successful statement's result set has at least one column
and no database NULL in its first column, `infoQuery` and `selectQuery`, run
from the same state on the same statement, both return, with the same `error`
text and the same state afterwards, and the vector of `infoQuery` is the
first-column projection of the rows of `selectQuery`; this covers the absent
handle and the failing statement, where both results are empty. -/
theorem infoQuery_refines_selectQuery (srv : Server) (s : State) (query error : String)
    (h : ∀ conn res, s.self.conn = some conn → (srv.query conn (c_str query)).1 = 0 →
      (srv.query conn (c_str query)).2.current = some res →
      1 ≤ res.num_fields ∧ res.WellFormed ∧ ∀ row ∈ res.rows, row.head? ≠ some none) :
    ∃ values table err s1,
      infoQuery srv s query error = .ok (values, err, s1) ∧
      selectQuery srv s query error = .ok (table, err, s1) ∧
      values = firstColumn table ∧
      ((s.self.conn = none ∨ ∃ conn, s.self.conn = some conn ∧
          (srv.query conn (c_str query)).1 ≠ 0) → values = [] ∧ table = []) := by
  cases hc : s.self.conn with
  | none =>
    exact ⟨[], [], "ERROR: DB connection is not available !", s, by simp [infoQuery, hc],
      by simp [selectQuery, hc], rfl, by simp⟩
  | some conn =>
    by_cases hcode : (srv.query conn (c_str query)).1 = 0
    · cases hres : (srv.query conn (c_str query)).2.current with
      | none =>
        refine ⟨[], [], error,
          afterQuery s query { (srv.query conn (c_str query)).2 with current := none },
          ?_, ?_, rfl, by simp⟩
        · simp only [infoQuery, hc, hcode, mysql_store_result, hres]
          simp [afterQuery]
        · simp only [selectQuery, hc, hcode, mysql_store_result, hres]
          simp [afterQuery]
      | some res =>
        obtain ⟨hk, hwf, hnn⟩ := h conn res hc hcode hres
        have hhead : ∀ row ∈ res.rows, ∃ v, row.head? = some (some v) := by
          intro row hrow
          have hl := hwf.2 row hrow
          have hn := hnn row hrow
          cases row with
          | nil => simp at hl; omega
          | cons c cs =>
            cases c with
            | none => simp at hn
            | some v => exact ⟨v, rfl⟩
        have hi := infoFetchLoop_ok res.rows [] hhead
        have hs := selectFetchLoop_wf res.num_fields hk hwf.1 res.rows [] hwf.2
        refine ⟨firstColumn (res.rows.map (fun row => row.map cellText)),
          res.rows.map (fun row => row.map cellText), error,
          afterQuery s query { (srv.query conn (c_str query)).2 with current := none },
          ?_, ?_, rfl, ?_⟩
        · simp only [infoQuery, hc, hcode, mysql_store_result, hres, hi]
          simp [afterQuery]
        · simp only [selectQuery, hc, hcode, mysql_store_result, hres, mysql_num_fields, hs]
          simp [afterQuery]
        · rintro (h0 | ⟨c0, hc0, hne⟩)
          · simp at h0
          · simp at hc0; subst hc0; exact absurd hcode hne
    · refine ⟨[], [], mysql_error (srv.query conn (c_str query)).2,
        afterQuery s query (srv.query conn (c_str query)).2, ?_, ?_, rfl, by simp⟩
      · simp [infoQuery, hc, hcode, afterQuery]
      · simp [selectQuery, hc, hcode, afterQuery]

/-- C10 on a connected object and a statement with a two-row result. -/
theorem infoQuery_refines_selectQuery_witness :
    ∃ values table err s1,
      infoQuery sampleServer connectedState "rows" "" = .ok (values, err, s1) ∧
      selectQuery sampleServer connectedState "rows" "" = .ok (table, err, s1) ∧
      values = firstColumn table ∧
      ((connectedState.self.conn = none ∨ ∃ conn, connectedState.self.conn = some conn ∧
          (sampleServer.query conn (c_str "rows")).1 ≠ 0) → values = [] ∧ table = []) :=
  infoQuery_refines_selectQuery sampleServer connectedState "rows" "" (by
    intro conn res hconn _ hres
    have hconn2 : conn = readySession := by
      have : connectedState.self.conn = some readySession := rfl
      rw [this] at hconn
      exact (Option.some.inj hconn).symm
    subst hconn2
    have hres2 : res = sampleResult := by
      have : (sampleServer.query readySession (c_str "rows")).2.current = some sampleResult := by
        decide
      rw [this] at hres
      exact (Option.some.inj hres).symm
    subst hres2
    decide)

/-! ## Connecting -/

/-- C1, the behaviour of the code: against a server on which every connection
attempt fails, `connect(retry)` with `retry ≥ 1` has not returned at any
recursion depth; at depth `depth` it has made `depth` connection attempts and
slept `depth` seconds, and the nested call it is about to make receives the
same `retry` again.  The counter never reaches zero and the number of
attempts is not bounded by `retry`. -/
theorem connect_never_returns (srv : Server)
    (hfail : ∀ server user password database port attempt,
      srv.real_connect server user password database port attempt = none)
    (depth : Nat) (retry : Int) (s : State) (hretry : 1 ≤ retry) :
    (postDecrement retry).1 = retry ∧
    ∃ s1, connect srv depth retry s = .active s1 ∧
      s1.world.connects = s.world.connects + depth ∧
      s1.world.slept = s.world.slept + depth := by
  refine ⟨rfl, ?_⟩
  induction depth generalizing s with
  | zero => exact ⟨s, rfl, rfl, rfl⟩
  | succ depth ih =>
    have hpos : ¬ retry ≤ 0 := by omega
    obtain ⟨s1, h1, h2, h3⟩ := ih
      { self := { s.self with conn := none },
        world := { s.world with connects := s.world.connects + 1, slept := s.world.slept + 1 } }
    refine ⟨s1, ?_, ?_, ?_⟩
    · rw [connect, if_neg hpos]
      simp only [hfail, postDecrement]
      exact h1
    · rw [h2]; simp; omega
    · rw [h3]; simp; omega

/-- C1 on the spec's scenario: `connect(2)` against an unreachable server is
still running after five attempts. -/
theorem connect_never_returns_witness :
    ∃ s1, connect unreachableServer 5 2 freshState = .active s1 ∧
      s1.world.connects = freshState.world.connects + 5 ∧
      s1.world.slept = freshState.world.slept + 5 :=
  (connect_never_returns unreachableServer (fun _ _ _ _ _ _ => rfl) 5 2 freshState
    (by decide)).2

/-- Whenever `connect` returns true the handle holds the session the server
established, and the `isValide()` that follows is true exactly when the
`server_status` of that session equals `MYSQL_STATUS_READY`. -/
theorem connect_true_isValide_iff (srv : Server) (depth : Nat) (retry : Int) (s s1 : State)
    (h : connect srv depth retry s = .returned true s1) :
    ∃ conn, s1.self.conn = some conn ∧
      (isValide s1.self = true ↔ conn.server_status = MYSQL_STATUS_READY) := by
  induction depth generalizing s with
  | zero => simp [connect] at h
  | succ depth ih =>
    rw [connect] at h
    by_cases hr : retry ≤ 0
    · simp [hr] at h
    · simp only [if_neg hr, postDecrement] at h
      cases hc : srv.real_connect (c_str s.self.server) (c_str s.self.user)
          (c_str s.self.password) (c_str s.self.database) s.self.port s.world.connects with
      | none =>
        simp only [hc] at h
        exact ih _ h
      | some conn =>
        simp only [hc] at h
        injection h with _ hs
        subst hs
        exact ⟨conn, rfl, by simp [isValide]⟩

/-- C3, at the failing input: against a server that establishes the session in
autocommit mode (`server_status = SERVER_STATUS_AUTOCOMMIT`), `connect(2)` on
the freshly constructed object returns true and the `isValide()` that follows
returns false, so that `checkQuery` refuses to run a statement. -/
theorem connect_then_isValide_false :
    ∃ s1, connect autocommitServer 3 2 freshState = .returned true s1 ∧
      s1.self.conn = some autocommitSession ∧
      isValide s1.self = false ∧
      ∀ bound, checkQuery autocommitServer bound s1 "rows" "" = .returned false "" s1 := by
  refine ⟨{ freshState with
      self := { freshState.self with conn := some autocommitSession },
      world := { freshState.world with connects := 1 } }, by decide, by decide, by decide,
    fun _ => rfl⟩

/-! ## Escaping -/

/-- C2, the behaviour of the code: on a present handle, for every input on
which the library keeps its bound of two output characters per input
character, `escapeString` returns the escaped text followed by zero bytes up
to the length `2 * length + 2`; the returned string is at least two
characters longer than the escaped text and differs from it. -/
theorem escapeString_padded (srv : Server) (self : SQLConnection) (conn : MYSQL) (str : String)
    (hconn : self.conn = some conn)
    (hlen : (srv.real_escape_string conn str).length ≤ 2 * str.length) :
    ∃ ret, escapeString srv self str = .ok ret ∧
      ret.data = (srv.real_escape_string conn str).data ++
        List.replicate (2 * str.length + 2 - (srv.real_escape_string conn str).length) NUL ∧
      ret.length = 2 * str.length + 2 ∧
      (srv.real_escape_string conn str).length + 2 ≤ ret.length ∧
      ret ≠ srv.real_escape_string conn str := by
  have hl : (srv.real_escape_string conn str).data.length ≤ 2 * str.data.length := hlen
  have hdata : (srv.real_escape_string conn str).data ++ [NUL] ++
      List.drop ((srv.real_escape_string conn str).data ++ [NUL]).length
        (List.replicate (str.length * 2 + 2) NUL)
      = (srv.real_escape_string conn str).data ++
        List.replicate (2 * str.length + 2 - (srv.real_escape_string conn str).length) NUL := by
    have hs : str.length = str.data.length := rfl
    have he : (srv.real_escape_string conn str).length
        = (srv.real_escape_string conn str).data.length := rfl
    rw [List.drop_replicate, List.append_assoc, List.singleton_append,
      ← List.replicate_succ, hs, he]
    congr 2
    simp
    omega
  have hfit : ((srv.real_escape_string conn str).data ++ [NUL]).length
      ≤ (List.replicate (str.length * 2 + 2) NUL).length := by
    have hs : str.length = str.data.length := rfl
    simp
    omega
  refine ⟨String.mk ((srv.real_escape_string conn str).data ++
      List.replicate (2 * str.length + 2 - (srv.real_escape_string conn str).length) NUL),
    ?_, rfl, ?_, ?_, ?_⟩
  · unfold escapeString
    simp only [hconn]
    rw [if_pos hfit, hdata]
  · show (_ ++ _ : List Char).length = _
    have hs : str.length = str.data.length := rfl
    have he : (srv.real_escape_string conn str).length
        = (srv.real_escape_string conn str).data.length := rfl
    simp
    omega
  · show _ ≤ (_ ++ _ : List Char).length
    have hs : str.length = str.data.length := rfl
    have he : (srv.real_escape_string conn str).length
        = (srv.real_escape_string conn str).data.length := rfl
    simp
    omega
  · intro heq
    have := congrArg String.length heq
    have hs : str.length = str.data.length := rfl
    have he : (srv.real_escape_string conn str).length
        = (srv.real_escape_string conn str).data.length := rfl
    change (_ ++ _ : List Char).length = _ at this
    simp at this
    omega

/-- C2 on the text made of a single quote and a backslash. -/
theorem escapeString_padded_witness :
    ∃ ret, escapeString sampleServer connectedState.self quoteBackslash = .ok ret ∧
      ret.data = (mysqlEscape quoteBackslash).data ++
        List.replicate (2 * quoteBackslash.length + 2 - (mysqlEscape quoteBackslash).length) NUL ∧
      ret.length = 2 * quoteBackslash.length + 2 ∧
      (mysqlEscape quoteBackslash).length + 2 ≤ ret.length ∧
      ret ≠ mysqlEscape quoteBackslash :=
  escapeString_padded sampleServer connectedState.self readySession quoteBackslash
    (by decide) (by decide)

/-- At the input made of a single quote and a backslash the escaped text of
the library reads back as the input, and the string `escapeString` returns
(the escaped text and two zero bytes) reads back as the input followed by two
zero bytes. -/
theorem escapeString_reads_back_padded :
    mysqlUnescape (mysqlEscape quoteBackslash) = quoteBackslash ∧
    escapeString sampleServer connectedState.self quoteBackslash
      = .ok (String.mk [Char.ofNat 92, Char.ofNat 39, Char.ofNat 92, Char.ofNat 92, NUL, NUL]) ∧
    mysqlUnescape (String.mk [Char.ofNat 92, Char.ofNat 39, Char.ofNat 92, Char.ofNat 92, NUL, NUL])
      = String.mk (quoteBackslash.data ++ [NUL, NUL]) := by
  refine ⟨by decide, by decide, by decide⟩

end SqlConn
